import Mathlib

/-!
Shallow embedding of the token-handling core of a two-party OIDC demo:
a relying-party Flask app (src/app/app.py) and a resource server
(src/resource_server/app.py).  Pure Python functions become Lean
functions; the process-wide JWKS cache becomes explicit state passing;
network calls become parameters describing the upstream responses.
-/

/-- JSON values, standing for the Python objects produced by
`json.loads` (Python `None` and JSON `null` are both `Json.null`). -/
inductive Json where
  | null : Json
  | bool : Bool → Json
  | num : Int → Json
  | str : String → Json
  | arr : List Json → Json
  | obj : List (String × Json) → Json

/-- Python truthiness of such a value (`if x:`): `None`, `False`, `0`,
the empty string, the empty list and the empty dict are falsy. -/
def Json.truthy : Json → Bool
  | .null => false
  | .bool b => b
  | .num n => n != 0
  | .str s => s != ""
  | .arr xs => !xs.isEmpty
  | .obj fs => !fs.isEmpty

/-- Python `d.get(k)` on a JSON object: the binding of `k`, or `None`
(`Json.null`) when the key is absent.  The embedding only applies this
to `.obj` values, mirroring the places where the Python code calls
`.get` on a dict. -/
def Json.get : Json → String → Json
  | .obj fs, k =>
      match fs.find? (fun p => p.1 == k) with
      | some p => p.2
      | none => .null
  | _, _ => .null

/-- Python `d.get(k, default)` on a JSON object. -/
def Json.getD : Json → String → Json → Json
  | .obj fs, k, d =>
      match fs.find? (fun p => p.1 == k) with
      | some p => p.2
      | none => d
  | _, _, d => d

/-- Python `x or y`. -/
def pyOr (x y : Json) : Json := if x.truthy then x else y

/-- Python `s.split(sep)` for a one-character separator, on the
character list: splitting never yields an empty list, and an input with
no separator yields the single segment `[s]`. -/
def pySplitChars (sep : Char) : List Char → List (List Char)
  | [] => [[]]
  | c :: cs =>
      match pySplitChars sep cs with
      | r :: rs => if c = sep then [] :: r :: rs else (c :: r) :: rs
      | [] => [[]]

/-- Python `s.split(sep)` for a one-character separator. -/
def pySplit (sep : Char) (s : String) : List String :=
  (pySplitChars sep s.toList).map String.mk

/-- Value of a base64url alphabet character
(`A`-`Z`, `a`-`z`, `0`-`9`, `-`, `_`). -/
def b64Value (c : Char) : Option Nat :=
  if 'A' ≤ c ∧ c ≤ 'Z' then some (c.toNat - 'A'.toNat)
  else if 'a' ≤ c ∧ c ≤ 'z' then some (c.toNat - 'a'.toNat + 26)
  else if '0' ≤ c ∧ c ≤ '9' then some (c.toNat - '0'.toNat + 52)
  else if c = '-' then some 62
  else if c = '_' then some 63
  else none

/-- Byte output for the 6-bit groups: complete groups of 4 give 3 bytes;
a lenient final group of 2 or 3 characters gives 1 or 2 bytes with the
surplus low bits discarded (CPython accepts `AB==` even though the
second character carries nonzero surplus bits). -/
def b64Groups : List Nat → List Nat
  | a :: b :: c :: d :: rest =>
      (a * 4 + b / 16) :: ((b % 16) * 16 + c / 4) :: ((c % 4) * 64 + d)
        :: b64Groups rest
  | [a, b] => [a * 4 + b / 16]
  | [a, b, c] => [a * 4 + b / 16, (b % 16) * 16 + c / 4]
  | _ => []

/-- Model of Python `base64.urlsafe_b64decode` in its default
(non-strict) mode, pinned against CPython on inputs whose `=` padding,
if any, sits at the end (the only shape `decode_jwt` produces):
characters outside the alphabet are discarded, the first `=` ends the
data, a data length ≡ 1 (mod 4) is an error ("number of data characters
cannot be 1 more than a multiple of 4"), a data length not ≡ 0 (mod 4)
with no `=` present at all is an error ("Incorrect padding"), and any
surplus trailing padding beyond a complete final group is ignored
(CPython decodes `eyJ9====` and `eyJ9` to the same bytes). -/
def b64Data (s : String) : List Nat :=
  (s.toList.takeWhile (fun c => c ≠ '=')).filterMap b64Value

def urlsafe_b64decode (s : String) : Option (List Nat) :=
  if (b64Data s).length % 4 = 1 then none
  else if (b64Data s).length % 4 ≠ 0 ∧ ¬ s.toList.contains '=' then none
  else some (b64Groups (b64Data s))

/-- The padding step of `decode_jwt` (src/app/app.py line 45):
`payload += '=' * (4 - len(payload) % 4)`.  Note this appends FOUR `=`
characters when the length is already a multiple of 4. -/
def padPayload (payload : String) : String :=
  payload ++ String.mk (List.replicate (4 - payload.length % 4) '=')

/-- Modelled from the spec: the padding the spec describes, appending
`(4 - len % 4) % 4` characters of `=` (zero when the length is already
a multiple of 4).  Kept beside `padPayload` to compare the code's
padding with the spec's. -/
def specPadPayload (payload : String) : String :=
  payload ++ String.mk (List.replicate ((4 - payload.length % 4) % 4) '=')

/-- `decode_jwt` (src/app/app.py lines 37-50): split the token on `.`,
require at least 2 parts, pad the second part, base64url-decode it and
JSON-parse the bytes.  `jloads` models Python `json.loads` on the
decoded bytes (`none` = parse error); any exception raised inside the
function is re-raised, modelled as `none`. -/
def decode_jwt (jloads : List Nat → Option Json) (token : String) : Option Json :=
  match pySplit '.' token with
  | _ :: payload :: _ =>
      match urlsafe_b64decode (padPayload payload) with
      | some bytes => jloads bytes
      | none => none
  | _ => none

/-- Structural content of a compact JWS token as seen by python-jose
`jwt.decode` inside `validate_token`.  Cryptographic signature checking
and the clock are not embeddable, so `sigValid` records whether the
RS256 signature verifies against the key set passed to `jwt.decode`,
and `expOk` whether the `exp` claim lies in the future. -/
structure TokenData where
  wellFormed : Bool
  alg : String
  sigValid : Bool
  claims : Json
  expOk : Bool

/-- Outcome of python-jose `jwt.decode`: success, `JWTError` (format or
signature failure, including a header algorithm outside the allowed
list), or `JWTClaimsError` (`iss`, `aud` or `exp` mismatch). -/
inductive JoseOutcome where
  | ok (claims : Json)
  | jwtError
  | claimsError

/-- `aud` acceptance in python-jose: the claim is a string equal to the
expected audience, or a list containing it. -/
def audOk (audience : String) : Json → Bool
  | .str s => s == audience
  | .arr xs => xs.any (fun a =>
      match a with
      | .str s => s == audience
      | _ => false)
  | _ => false

/-- The `iss` test in python-jose is `claims.get('iss') != issuer` with
`issuer` a string: it passes exactly when the claim is that string. -/
def issMatches (issuer : String) : Json → Bool
  | .str s => s == issuer
  | _ => false

/-- Modelled from the spec: python-jose `jwt.decode(token, key,
audience, issuer, algorithms)`, the external library call at
src/resource_server/app.py lines 57-64.  Order of checks: compact
deserialization, header `alg` against the allowed list (jose raises
before any signature work when the algorithm is not allowed), the
signature, then the claims `iss`, `aud` and `exp`.  The caller disables
`verify_at_hash`, so `at_hash` is not checked. -/
def joseJwtDecode (tok : TokenData) (audience issuer : String)
    (algorithms : List String) : JoseOutcome :=
  if ¬ tok.wellFormed then .jwtError
  else if ¬ algorithms.contains tok.alg then .jwtError
  else if ¬ tok.sigValid then .jwtError
  else if ¬ issMatches issuer (tok.claims.get "iss") then .claimsError
  else if ¬ audOk audience (tok.claims.get "aud") then .claimsError
  else if ¬ tok.expOk then .claimsError
  else .ok tok.claims

def EXPECTED_AUDIENCE : String := "my-client"

def KEYCLOAK_ISSUER : String := "http://localhost:8080/realms/myrealm"

/-- Result of `validate_token`: the decoded claims, a `ValueError`
(every failure raised inside the `try` block, i.e. any jose error or
unexpected exception), or the `ConnectionError` that
`get_keycloak_jwks()` raises before the `try` block is entered. -/
inductive ValidateResult where
  | ok (claims : Json)
  | tokenInvalid
  | keySetUnavailable

/-- `validate_token` (src/resource_server/app.py lines 43-77).
`getJwks` is the outcome of the `get_keycloak_jwks()` call on line 48
(`.error` = `ConnectionError`, raised outside the `try` block and hence
propagated unchanged); every jose failure inside the `try` block is
re-raised as `ValueError`. -/
def validate_token (getJwks : Except Unit Json) (tok : TokenData) : ValidateResult :=
  match getJwks with
  | .error _ => .keySetUnavailable
  | .ok _ =>
      match joseJwtDecode tok EXPECTED_AUDIENCE KEYCLOAK_ISSUER ["RS256"] with
      | .ok claims => .ok claims
      | .jwtError => .tokenInvalid
      | .claimsError => .tokenInvalid

/-- A concrete HS256 token with correct `iss`, `aud` and `exp`. -/
def hs256Token : TokenData :=
  { wellFormed := true
    alg := "HS256"
    sigValid := true
    claims := Json.obj
      [("iss", Json.str KEYCLOAK_ISSUER), ("aud", Json.str "my-client"),
       ("sub", Json.str "u1"), ("exp", Json.num 9999999999)]
    expOk := true }

/-- Python `s.startswith(pre)`. -/
def pyStartsWith (pre s : String) : Bool := pre.data.isPrefixOf s.data

/-- The token string `auth_header.split(' ')[1]` extracts (the index is
in range because the header starts with "Bearer ", which contains a
space). -/
def bearerToken (hdr : String) : String := (pySplit ' ' hdr).getD 1 ""

/-- `protected_resource` (src/resource_server/app.py lines 79-122).
`authHeader` is the optional `Authorization` header value; `interp`
gives the structural content of the extracted compact token string (the
parsing and cryptography python-jose performs inside `validate_token`);
`getJwks` is the outcome of the JWKS-cache access during validation.
Returns the HTTP status code and JSON body.  The final
`except Exception` branch (500 with a generic message) is unreachable
in the model because no further exception arises. -/
def protected_resource (authHeader : Option String)
    (interp : String → TokenData) (getJwks : Except Unit Json) : Nat × Json :=
  match authHeader with
  | none => (401, Json.obj [("message", Json.str "Authorization header missing")])
  | some hdr =>
    if ¬ pyStartsWith "Bearer " hdr then
      (401, Json.obj [("message",
        Json.str "Invalid Authorization header format. Expected Bearer token")])
    else
      match validate_token getJwks (interp (bearerToken hdr)) with
      | .ok decoded =>
          (200, Json.obj
            [("message",
              Json.str "This is highly confidential data from the protected resource!"),
             ("received_token_length", Json.num ((bearerToken hdr).length : Int)),
             ("accessed_by_user_id", decoded.getD "sub" (Json.str "unknown")),
             ("preferred_username", decoded.getD "preferred_username" (Json.str "unknown")),
             ("token_claims", decoded)])
      | .tokenInvalid =>
          (401, Json.obj [("message", Json.str "Unauthorized: token validation failed")])
      | .keySetUnavailable =>
          (500, Json.obj [("message",
            Json.str "Server error: Could not connect to Keycloak for token validation")])

/-- State of the process-wide JWKS cache: the `_cached_jwks` global of
src/resource_server/app.py line 26, plus a ghost counter of upstream
GET requests issued so far. -/
structure JwksCacheState (J : Type) where
  cached : Option J
  fetches : Nat
  deriving Repr, DecidableEq

/-- `get_keycloak_jwks` (src/resource_server/app.py lines 28-41) as a
state transformer.  `fetch k` is the outcome of the `k`-th upstream GET
to the JWKS endpoint: `none` models `requests` raising or a non-2xx
status (so `raise_for_status` throws and `ConnectionError` is raised to
the caller, shown as `.error`), `some j` the parsed JSON body assigned
to `_cached_jwks`. -/
def get_keycloak_jwks (fetch : Nat → Option J) (st : JwksCacheState J) :
    Except Unit J × JwksCacheState J :=
  match st.cached with
  | some j => (.ok j, st)
  | none =>
      match fetch st.fetches with
      | some j => (.ok j, ⟨some j, st.fetches + 1⟩)
      | none => (.error (), ⟨none, st.fetches + 1⟩)

/-- `n` successive calls to `get_keycloak_jwks`. -/
def jwksCalls (fetch : Nat → Option J) : Nat → JwksCacheState J → JwksCacheState J
  | 0, st => st
  | n + 1, st => jwksCalls fetch n (get_keycloak_jwks fetch st).2

/-- Control point of one caller executing `get_keycloak_jwks`
concurrently, one atomic action per step of the Python body: test the
global `_cached_jwks`, perform the upstream GET, assign the global,
then `return _cached_jwks` (a fresh read of the global). -/
inductive FetchPhase (J : Type) where
  | start
  | willFetch
  | willWrite (v : J)
  | willReturn
  | finished (v : Option J)
  deriving Repr, DecidableEq

/-- One caller: its control point plus a ghost flag recording whether
it has issued its upstream GET. -/
structure FetchThread (J : Type) where
  phase : FetchPhase J
  hasFetched : Bool
  deriving Repr, DecidableEq

/-- Whole-system state for two concurrent first-time callers: the
shared `_cached_jwks` global, the ghost fetch counter, and the two
callers. -/
structure ConcState (J : Type) where
  cached : Option J
  fetches : Nat
  t0 : FetchThread J
  t1 : FetchThread J
  deriving Repr, DecidableEq

/-- One atomic action of one caller.  The check-then-fetch of
src/resource_server/app.py lines 31-36 is NOT serialized: between a
caller's `is None` test and its assignment, the other caller may do
anything.  (All fetches succeed here — the first-access race of the
claim; `fetch k` is the value of the `k`-th GET.) -/
def threadStep (fetch : Nat → J) (cached : Option J) (fetches : Nat)
    (th : FetchThread J) : FetchThread J × Option J × Nat :=
  match th.phase with
  | .start =>
      match cached with
      | none => (⟨.willFetch, th.hasFetched⟩, cached, fetches)
      | some _ => (⟨.willReturn, th.hasFetched⟩, cached, fetches)
  | .willFetch => (⟨.willWrite (fetch fetches), true⟩, cached, fetches + 1)
  | .willWrite v => (⟨.willReturn, th.hasFetched⟩, some v, fetches)
  | .willReturn => (⟨.finished cached, th.hasFetched⟩, cached, fetches)
  | .finished v => (⟨.finished v, th.hasFetched⟩, cached, fetches)

/-- Run one atomic action of the scheduled caller (`false` = first
caller, `true` = second). -/
def concStep (fetch : Nat → J) (sys : ConcState J) (who : Bool) : ConcState J :=
  if who then
    match threadStep fetch sys.cached sys.fetches sys.t1 with
    | (th, c, f) => ⟨c, f, sys.t0, th⟩
  else
    match threadStep fetch sys.cached sys.fetches sys.t0 with
    | (th, c, f) => ⟨c, f, th, sys.t1⟩

/-- Run a whole schedule of interleaved actions. -/
def concRun (fetch : Nat → J) : List Bool → ConcState J → ConcState J
  | [], sys => sys
  | w :: ws, sys => concRun fetch ws (concStep fetch sys w)

/-- Both callers about to enter `get_keycloak_jwks` with an empty
cache. -/
def concInit (J : Type) : ConcState J :=
  ⟨none, 0, ⟨.start, false⟩, ⟨.start, false⟩⟩

/-- Per-caller invariant for the race analysis with a constant upstream
(`fetch _ = j`): a caller that has not yet fetched carries a clear
ghost flag, a fetched value is `j`, and a caller at or past its return
read can only observe `j`. -/
def threadOk (j : J) (cached : Option J) (th : FetchThread J) : Prop :=
  match th.phase with
  | .start => th.hasFetched = false
  | .willFetch => th.hasFetched = false
  | .willWrite v => v = j
  | .willReturn => cached = some j
  | .finished v => v = some j

/-- System invariant: the ghost counter counts exactly the callers that
have fetched, and the cache only ever holds `j`. -/
def concInv (j : J) (sys : ConcState J) : Prop :=
  sys.fetches
      = (if sys.t0.hasFetched then 1 else 0) + (if sys.t1.hasFetched then 1 else 0) ∧
  (sys.cached = none ∨ sys.cached = some j) ∧
  threadOk j sys.cached sys.t0 ∧ threadOk j sys.cached sys.t1

/-- Python `s.strip()`: drop whitespace from both ends. -/
def pyStrip (s : String) : String :=
  String.mk ((s.data.dropWhile Char.isWhitespace).reverse.dropWhile
    Char.isWhitespace).reverse

/-- The four session keys `/callback` writes (the Flask `session`
mapping): `none` = key absent, `some v` = key present with Python value
`v` (possibly `None` = `Json.null`, as stored for a missing
`id_token`). -/
structure Session where
  user : Option Json
  userinfo : Option Json
  access_token : Option Json
  id_token : Option Json

/-- An upstream HTTP response as the two `requests` calls in
`/callback` see it: `ok` is `resp.ok` (status below 400), `body` the
result of `resp.json()` (`none` = body is not valid JSON, raising
`JSONDecodeError` when `.json()` is called). -/
structure UpstreamResp where
  ok : Bool
  body : Option Json

/-- The HTTP outcome of `/callback`: the 400 for a missing/empty `code`
parameter, the 500s for the token endpoint, missing access token,
userinfo endpoint, network errors and JSON decode errors, the
framework-level 500 for an uncaught `AttributeError`, and the 302
redirect to the index on success. -/
inductive CallbackOutcome where
  | missingCode
  | tokenEndpointError
  | accessTokenMissing
  | userinfoEndpointError
  | connectionError
  | jsonDecodeError
  | uncaughtTypeError
  | success
  deriving Repr, DecidableEq

/-- `/callback` (src/app/app.py lines 52-172) as a function of the
request and the two upstream calls.  `code` is the `code` query
parameter (`if not code` also rejects an empty string); `tokenResp` is
the token-endpoint POST (`.error` = `requests.RequestException`);
`userinfoResp` the userinfo GET; `jloads` models `json.loads`; `s` the
Flask session before the request.  The debug-only decodes at lines
90-115 only print and are omitted.  `uncaughtTypeError` marks paths
where Python raises an uncaught `AttributeError` (a JSON body that is
not a dict where `.get` is called, or a non-string `access_token` at
`.strip()`); the fallback block catches its own exceptions and falls
through to the userinfo-endpoint 500. -/
def callback (jloads : List Nat → Option Json) (code : Option String)
    (tokenResp : Except Unit UpstreamResp) (userinfoResp : Except Unit UpstreamResp)
    (s : Session) : CallbackOutcome × Session :=
  match code with
  | none => (.missingCode, s)
  | some c =>
    if c = "" then (.missingCode, s)
    else
      match tokenResp with
      | .error _ => (.connectionError, s)
      | .ok resp =>
        if ¬ resp.ok then (.tokenEndpointError, s)
        else
          match resp.body with
          | none => (.jsonDecodeError, s)
          | some tokens =>
            match tokens with
            | .obj _ =>
              if ¬ (tokens.get "access_token").truthy then (.accessTokenMissing, s)
              else
                match tokens.get "access_token" with
                | .str rawTok =>
                  match userinfoResp with
                  | .error _ => (.connectionError, s)
                  | .ok uresp =>
                    if ¬ uresp.ok then
                      if (tokens.get "id_token").truthy then
                        match tokens.get "id_token" with
                        | .str idt =>
                          match decode_jwt jloads idt with
                          | some userinfo =>
                            match userinfo with
                            | .obj _ =>
                              (.success,
                               ⟨some (pyOr (userinfo.get "preferred_username")
                                  (userinfo.get "sub")),
                                some userinfo,
                                some (.str (pyStrip rawTok)),
                                some (.str idt)⟩)
                            | _ => (.userinfoEndpointError, s)
                          | none => (.userinfoEndpointError, s)
                        | _ => (.userinfoEndpointError, s)
                      else (.userinfoEndpointError, s)
                    else
                      match uresp.body with
                      | none => (.jsonDecodeError, s)
                      | some userinfo =>
                        match userinfo with
                        | .obj _ =>
                          (.success,
                           ⟨some (userinfo.get "preferred_username"),
                            some userinfo,
                            some (.str (pyStrip rawTok)),
                            some (tokens.get "id_token")⟩)
                        | _ => (.uncaughtTypeError, s)
                | _ => (.uncaughtTypeError, s)
            | _ => (.uncaughtTypeError, s)

/-- The empty Flask session. -/
def emptySession : Session := ⟨none, none, none, none⟩

/-- `json.loads` stub for the id_token "x.AA", whose payload decodes to
the single byte 0: claims with an EMPTY `preferred_username`. -/
def emptyPuLoads : List Nat → Option Json := fun b =>
  if b = [0] then
    some (Json.obj [("preferred_username", Json.str ""), ("sub", Json.str "u1")])
  else none

/-- `json.loads` stub for the id_token "x.AA" with the spec's example
claims: `preferred_username = "alice"`. -/
def aliceLoads : List Nat → Option Json := fun b =>
  if b = [0] then
    some (Json.obj [("preferred_username", Json.str "alice"), ("sub", Json.str "u1")])
  else none

/-- C6: for every input string whose split on `.` yields fewer than 2
segments, `decode_jwt` fails (raises `ValueError`, modelled as `none`)
and never returns a claims mapping. -/
theorem c6_short_token_fails (jloads : List Nat → Option Json) (token : String)
    (hlt : (pySplit '.' token).length < 2) :
    decode_jwt jloads token = none := by
  cases hm : pySplit '.' token with
  | nil => simp [decode_jwt, hm]
  | cons a tl =>
    cases tl with
    | nil => simp [decode_jwt, hm]
    | cons b tl2 =>
      rw [hm] at hlt
      simp only [List.length_cons] at hlt
      omega

/-- Witness for C6 at the one-segment token "abc". -/
theorem c6_short_token_fails_witness :
    (pySplit '.' "abc").length < 2 ∧ decode_jwt (fun _ => none) "abc" = none :=
  ⟨by decide, c6_short_token_fails (fun _ => none) "abc" (by decide)⟩

/-- C3 counterexample: for the claims segment "eyJ9" (length 4, already
a multiple of 4) the code appends 4 `=` characters, while the claim
says exactly `(4 - len % 4) % 4 = 0` characters are appended. -/
theorem c3_padding_counterexample :
    padPayload "eyJ9" = "eyJ9====" ∧
    (padPayload "eyJ9").length = "eyJ9".length + 4 ∧
    (4 - "eyJ9".length % 4) % 4 = 0 ∧
    padPayload "eyJ9" ≠ specPadPayload "eyJ9" := by
  refine ⟨by decide, by decide, by decide, by decide⟩

theorem string_data_append (a b : String) : (a ++ b).data = a.data ++ b.data := rfl

theorem string_length_append (a b : String) : (a ++ b).length = a.length + b.length := by
  show (a ++ b).data.length = a.data.length + b.data.length
  rw [string_data_append, List.length_append]

/-- Auxiliary: `takeWhile` runs past a prefix whose elements all satisfy
the predicate. -/
theorem takeWhile_append_all {p : Char → Bool} (l m : List Char)
    (hall : ∀ c ∈ l, p c = true) :
    (l ++ m).takeWhile p = l ++ m.takeWhile p := by
  induction l with
  | nil => simp
  | cons c cs ih =>
    have hc := hall c (by simp)
    simp [List.takeWhile_cons, hc, ih (fun x hx => hall x (by simp [hx]))]

/-- Auxiliary: `filterMap` keeps the length when the function succeeds
everywhere. -/
theorem length_filterMap_all {f : Char → Option Nat} (l : List Char)
    (hall : ∀ c ∈ l, (f c).isSome = true) :
    (l.filterMap f).length = l.length := by
  induction l with
  | nil => simp
  | cons c cs ih =>
    have h := hall c (by simp)
    cases hf : f c with
    | none => rw [hf] at h; simp at h
    | some v =>
      rw [List.filterMap_cons_some hf]
      simp [ih (fun x hx => hall x (by simp [hx]))]

/-- Auxiliary: `takeWhile` is the identity on a list whose elements all
satisfy the predicate. -/
theorem takeWhile_all {p : Char → Bool} (l : List Char)
    (hall : ∀ c ∈ l, p c = true) : l.takeWhile p = l := by
  have h := takeWhile_append_all l [] hall
  simpa using h

/-- C3 (amended): for a token with at least two segments, `decode_jwt`
base64url-decodes the second segment padded with `4 - len % 4`
characters of `=` (four characters, not zero, when the length is
already a multiple of 4) and JSON-parses the bytes; because the decoder
ignores surplus trailing padding, the decoded bytes equal those of the
segment padded with the spec's `(4 - len % 4) % 4` characters, for any
segment made of base64url alphabet characters. -/
theorem c3_amended_decode (jloads : List Nat → Option Json)
    (token hd payload : String) (rest : List String)
    (hs : pySplit '.' token = hd :: payload :: rest)
    (halpha : ∀ c ∈ payload.data, (b64Value c).isSome = true) :
    decode_jwt jloads token =
      (match urlsafe_b64decode (padPayload payload) with
       | some bytes => jloads bytes
       | none => none) ∧
    (padPayload payload).length = payload.length + (4 - payload.length % 4) ∧
    urlsafe_b64decode (padPayload payload) = urlsafe_b64decode (specPadPayload payload) := by
  have hne : ∀ c ∈ payload.data, (fun c => decide (c ≠ '=')) c = true := by
    intro c hc
    simp only [decide_eq_true_eq]
    intro hEq
    subst hEq
    exact absurd (halpha _ hc) (by decide)
  refine ⟨by simp [decode_jwt, hs], ?_, ?_⟩
  · rw [padPayload, string_length_append]
    simp
  · by_cases hL : payload.length % 4 = 0
    · have hflen : (payload.data.filterMap b64Value).length % 4 = 0 := by
        rw [length_filterMap_all _ halpha]
        exact hL
      have hcode : b64Data (padPayload payload) = payload.data.filterMap b64Value := by
        have hdata : (padPayload payload).toList = payload.data ++ List.replicate 4 '=' := by
          simp [padPayload, hL, String.toList, string_data_append]
        rw [b64Data, hdata, takeWhile_append_all _ _ hne]
        have hrep : (List.replicate 4 '=').takeWhile (fun c => decide (c ≠ '=')) = [] := by
          decide
        rw [hrep, List.append_nil]
      have hspec : b64Data (specPadPayload payload) = payload.data.filterMap b64Value := by
        have hdata : (specPadPayload payload).toList = payload.data := by
          simp [specPadPayload, hL, String.toList, string_data_append]
        rw [b64Data, hdata, takeWhile_all _ hne]
      rw [urlsafe_b64decode, urlsafe_b64decode, hcode, hspec]
      rw [if_neg (by omega), if_neg (by simp [hflen]), if_neg (by omega),
        if_neg (by simp [hflen])]
    · have hmod : (4 - payload.length % 4) % 4 = 4 - payload.length % 4 := by
        have hlt : payload.length % 4 < 4 := Nat.mod_lt _ (by omega)
        omega
      rw [specPadPayload, hmod]
      rfl

/-- Witness for C3 (amended) at the token "hh.eyJ9". -/
theorem c3_amended_decode_witness :
    decode_jwt (fun _ => some (Json.obj [])) "hh.eyJ9" =
      (match urlsafe_b64decode (padPayload "eyJ9") with
       | some bytes => (fun _ => some (Json.obj [])) bytes
       | none => none) ∧
    (padPayload "eyJ9").length = "eyJ9".length + (4 - "eyJ9".length % 4) ∧
    urlsafe_b64decode (padPayload "eyJ9") = urlsafe_b64decode (specPadPayload "eyJ9") :=
  c3_amended_decode (fun _ => some (Json.obj [])) "hh.eyJ9" "hh" "eyJ9" []
    (by decide) (by decide)

/-- C1: with the key set available, any bearer token whose header
declares an algorithm other than RS256 (in particular `none` or
`HS256`) is rejected as `ValueError` (`TokenInvalid`) regardless of its
claims; conversely an accepted token used algorithm RS256 and its
signature validated against the key set. -/
theorem c1_only_rs256_accepted (jwks : Json) (tok : TokenData) :
    (tok.alg ≠ "RS256" → validate_token (.ok jwks) tok = .tokenInvalid) ∧
    (∀ claims, validate_token (.ok jwks) tok = .ok claims →
      tok.alg = "RS256" ∧ tok.sigValid = true) := by
  constructor
  · intro halg
    have hcf : (["RS256"] : List String).contains tok.alg = false := by
      simp only [List.contains_cons, List.contains_nil, Bool.or_false]
      exact beq_eq_false_iff_ne.mpr halg
    have hj : joseJwtDecode tok EXPECTED_AUDIENCE KEYCLOAK_ISSUER ["RS256"] = .jwtError := by
      unfold joseJwtDecode
      rw [hcf]
      by_cases hwf : tok.wellFormed = true
      · simp [hwf]
      · simp [hwf]
    simp [validate_token, hj]
  · intro claims h
    unfold validate_token at h
    cases hj : joseJwtDecode tok EXPECTED_AUDIENCE KEYCLOAK_ISSUER ["RS256"] with
    | ok c =>
      unfold joseJwtDecode at hj
      split_ifs at hj with h1 h2 h3 h4 h5 h6
      refine ⟨?_, h3⟩
      simpa [List.contains_cons] using h2
    | jwtError => rw [hj] at h; exact ValidateResult.noConfusion h
    | claimsError => rw [hj] at h; exact ValidateResult.noConfusion h

/-- Witness for C1: the HS256 token with otherwise-correct claims is
rejected as `TokenInvalid`. -/
theorem c1_only_rs256_accepted_witness :
    validate_token (.ok (Json.obj [])) hs256Token = .tokenInvalid :=
  (c1_only_rs256_accepted (Json.obj []) hs256Token).1 (by decide)

/-- C7: `/protected-resource` returns 401 whenever the header is
missing or malformed or validation fails with `TokenInvalid`, 500
whenever the key set is unavailable, and 200 exactly when verification
succeeds; every non-200 body is an object whose only field is
`message`, so internal exception text never leaks outside the message
field. -/
theorem c7_status_mapping (authHeader : Option String)
    (interp : String → TokenData) (getJwks : Except Unit Json) :
    ((protected_resource authHeader interp getJwks).1 = 200 ↔
      ∃ hdr, authHeader = some hdr ∧ pyStartsWith "Bearer " hdr = true ∧
        ∃ c, validate_token getJwks (interp (bearerToken hdr)) = .ok c) ∧
    (authHeader = none → (protected_resource authHeader interp getJwks).1 = 401) ∧
    (∀ hdr, authHeader = some hdr → pyStartsWith "Bearer " hdr = false →
      (protected_resource authHeader interp getJwks).1 = 401) ∧
    (∀ hdr, authHeader = some hdr → pyStartsWith "Bearer " hdr = true →
      validate_token getJwks (interp (bearerToken hdr)) = .tokenInvalid →
      (protected_resource authHeader interp getJwks).1 = 401) ∧
    (∀ hdr, authHeader = some hdr → pyStartsWith "Bearer " hdr = true →
      validate_token getJwks (interp (bearerToken hdr)) = .keySetUnavailable →
      (protected_resource authHeader interp getJwks).1 = 500) ∧
    ((protected_resource authHeader interp getJwks).1 ≠ 200 →
      ∃ msg, (protected_resource authHeader interp getJwks).2
        = Json.obj [("message", Json.str msg)]) := by
  cases authHeader with
  | none =>
    refine ⟨?_, ?_, ?_, ?_, ?_, ?_⟩
    · simp [protected_resource]
    · intro _; rfl
    · intro hdr h; exact Option.noConfusion h
    · intro hdr h; exact Option.noConfusion h
    · intro hdr h; exact Option.noConfusion h
    · intro _; exact ⟨"Authorization header missing", rfl⟩
  | some hdr =>
    by_cases hb : pyStartsWith "Bearer " hdr = true
    · cases hv : validate_token getJwks (interp (bearerToken hdr)) with
      | ok c =>
        refine ⟨?_, ?_, ?_, ?_, ?_, ?_⟩
        · constructor
          · intro _
            exact ⟨hdr, rfl, hb, c, hv⟩
          · intro _
            simp [protected_resource, hb, hv]
        · intro h; exact Option.noConfusion h
        · intro hdr2 heq hb2
          cases heq
          rw [hb2] at hb
          exact Bool.noConfusion hb
        · intro hdr2 heq _ hv2
          cases heq
          rw [hv2] at hv
          exact ValidateResult.noConfusion hv
        · intro hdr2 heq _ hv2
          cases heq
          rw [hv2] at hv
          exact ValidateResult.noConfusion hv
        · intro hne
          exact absurd (by simp [protected_resource, hb, hv]) hne
      | tokenInvalid =>
        refine ⟨?_, ?_, ?_, ?_, ?_, ?_⟩
        · constructor
          · intro h200
            have : (protected_resource (some hdr) interp getJwks).1 = 401 := by
              simp [protected_resource, hb, hv]
            omega
          · rintro ⟨hdr2, heq, hb2, c, hv2⟩
            cases heq
            rw [hv2] at hv
            exact ValidateResult.noConfusion hv
        · intro h; exact Option.noConfusion h
        · intro hdr2 heq hb2
          cases heq
          rw [hb2] at hb
          exact Bool.noConfusion hb
        · intro hdr2 heq _ _
          simp [protected_resource, hb, hv]
        · intro hdr2 heq _ hv2
          cases heq
          rw [hv2] at hv
          exact ValidateResult.noConfusion hv
        · intro _
          refine ⟨"Unauthorized: token validation failed", ?_⟩
          simp [protected_resource, hb, hv]
      | keySetUnavailable =>
        refine ⟨?_, ?_, ?_, ?_, ?_, ?_⟩
        · constructor
          · intro h200
            have : (protected_resource (some hdr) interp getJwks).1 = 500 := by
              simp [protected_resource, hb, hv]
            omega
          · rintro ⟨hdr2, heq, hb2, c, hv2⟩
            cases heq
            rw [hv2] at hv
            exact ValidateResult.noConfusion hv
        · intro h; exact Option.noConfusion h
        · intro hdr2 heq hb2
          cases heq
          rw [hb2] at hb
          exact Bool.noConfusion hb
        · intro hdr2 heq _ hv2
          cases heq
          rw [hv2] at hv
          exact ValidateResult.noConfusion hv
        · intro hdr2 heq _ _
          simp [protected_resource, hb, hv]
        · intro _
          refine ⟨"Server error: Could not connect to Keycloak for token validation", ?_⟩
          simp [protected_resource, hb, hv]
    · have hbf : pyStartsWith "Bearer " hdr = false := by
        cases hpb : pyStartsWith "Bearer " hdr
        · rfl
        · exact absurd hpb hb
      refine ⟨?_, ?_, ?_, ?_, ?_, ?_⟩
      · constructor
        · intro h200
          have : (protected_resource (some hdr) interp getJwks).1 = 401 := by
            simp [protected_resource, hbf]
          omega
        · rintro ⟨hdr2, heq, hb2, c, hv2⟩
          cases heq
          rw [hb2] at hbf
          exact Bool.noConfusion hbf
      · intro h; exact Option.noConfusion h
      · intro hdr2 heq _
        simp [protected_resource, hbf]
      · intro hdr2 heq hb2 _
        cases heq
        rw [hb2] at hbf
        exact Bool.noConfusion hbf
      · intro hdr2 heq hb2 _
        cases heq
        rw [hb2] at hbf
        exact Bool.noConfusion hbf
      · intro _
        refine ⟨"Invalid Authorization header format. Expected Bearer token", ?_⟩
        simp [protected_resource, hbf]

/-- Witness for C7: a Bearer request whose token fails validation (an
HS256 token) yields 401. -/
theorem c7_status_mapping_witness :
    (protected_resource (some "Bearer tok") (fun _ => hs256Token) (.ok (Json.obj []))).1
      = 401 :=
  (c7_status_mapping (some "Bearer tok") (fun _ => hs256Token) (.ok (Json.obj []))).2.2.2.1
    "Bearer tok" rfl (by decide) (by rfl)

/-- C2 counterexample: with an upstream whose first fetch fails and
whose second succeeds, two calls to the cache issue two upstream
fetches — the claimed "at most one upstream fetch per process lifetime
regardless of whether any earlier fetch attempt failed" is false, and
the second call is not served from the cache. -/
theorem c2_refetch_counterexample :
    (jwksCalls (fun k => if k = 0 then none else some 7) 2 ⟨none, 0⟩).fetches = 2 ∧
    ¬ (jwksCalls (fun k => if k = 0 then none else some 7) 2 ⟨none, 0⟩).fetches ≤ 1 := by
  have h : (jwksCalls (fun k => if k = 0 then none else some 7) 2 ⟨none, 0⟩).fetches = 2 :=
    rfl
  exact ⟨h, by rw [h]; omega⟩

/-- C2 (amended): once a fetch has succeeded and populated the cache,
every subsequent call returns the cached key set with no further
upstream fetch (so at most one SUCCESSFUL fetch occurs per process
lifetime); only failed attempts are retried on later calls. -/
theorem c2_amended_cached_stays (J : Type) (fetch : Nat → Option J)
    (j : J) (c n : Nat) :
    jwksCalls fetch n ⟨some j, c⟩ = ⟨some j, c⟩ ∧
    get_keycloak_jwks fetch ⟨some j, c⟩ = (.ok j, ⟨some j, c⟩) := by
  constructor
  · induction n with
    | zero => rfl
    | succ m ih =>
      show jwksCalls fetch m (get_keycloak_jwks fetch ⟨some j, c⟩).2 = _
      exact ih
  · rfl

/-- C10: the cache memoizes only successes.  From an empty cache a call
attempts a fetch (ghost counter increments); a failed fetch caches
nothing and raises `ConnectionError` to the caller, leaving the cache
empty so that the next call fetches again; a successful fetch caches
its value; a populated cache is returned as-is, never replaced and with
no fetch. -/
theorem c10_memoize_only_success (J : Type) (fetch : Nat → Option J)
    (c : Nat) (j : J) :
    (get_keycloak_jwks fetch (⟨none, c⟩ : JwksCacheState J)
      = (match fetch c with
         | some v => (.ok v, ⟨some v, c + 1⟩)
         | none => (.error (), ⟨none, c + 1⟩))) ∧
    get_keycloak_jwks fetch ⟨some j, c⟩ = (.ok j, ⟨some j, c⟩) := by
  constructor
  · cases hf : fetch c with
    | none => simp [get_keycloak_jwks, hf]
    | some v => simp [get_keycloak_jwks, hf]
  · rfl

/-- C8 counterexample: the interleaving in which both callers pass the
`is None` test before either fetches makes BOTH fetch — two upstream
fetches under two concurrent first-time callers, refuting "the populate
step is serialized so that at most one upstream JWKS fetch occurs". -/
theorem c8_race_counterexample :
    (concRun (fun _ => (5 : Nat)) [false, true, false, true] (concInit Nat)).fetches = 2 ∧
    ¬ (concRun (fun _ => (5 : Nat)) [false, true, false, true] (concInit Nat)).fetches ≤ 1 := by
  have h : (concRun (fun _ => (5 : Nat)) [false, true, false, true] (concInit Nat)).fetches
      = 2 := rfl
  exact ⟨h, by rw [h]; omega⟩

theorem concStep_inv (j : J) (sys : ConcState J) (w : Bool)
    (h : concInv j sys) : concInv j (concStep (fun _ => j) sys w) := by
  obtain ⟨hcount, hcache, h0, h1⟩ := h
  rcases sys with ⟨cached, fetches, ⟨p0, f0⟩, ⟨p1, f1⟩⟩
  cases w <;> cases p0 <;> cases p1 <;> cases cached <;>
    simp_all [concStep, threadStep, concInv, threadOk] <;> omega

theorem concRun_inv (j : J) (ws : List Bool) (sys : ConcState J)
    (h : concInv j sys) : concInv j (concRun (fun _ => j) ws sys) := by
  induction ws generalizing sys with
  | nil => exact h
  | cons w ws2 ih => exact ih _ (concStep_inv j sys w h)

/-- C8 (amended): the populate step is NOT serialized; under two
concurrent first-time callers any interleaving issues at most two
upstream fetches (each caller fetches at most once, so up to N fetches
for N callers, not one), and — when the upstream consistently serves
the key set `j` — every caller that completes observes that same key
set. -/
theorem c8_amended_race_tolerant (J : Type) (j : J) (ws : List Bool) :
    (concRun (fun _ => j) ws (concInit J)).fetches ≤ 2 ∧
    (∀ v, (concRun (fun _ => j) ws (concInit J)).t0.phase = .finished v → v = some j) ∧
    (∀ v, (concRun (fun _ => j) ws (concInit J)).t1.phase = .finished v → v = some j) := by
  have hinit : concInv j (concInit J) := by
    refine ⟨rfl, Or.inl rfl, ?_, ?_⟩ <;> simp [threadOk, concInit]
  have hinv := concRun_inv j ws (concInit J) hinit
  obtain ⟨hc, hcache, h0, h1⟩ := hinv
  refine ⟨?_, ?_, ?_⟩
  · rw [hc]
    split_ifs <;> omega
  · intro v hv
    simp only [threadOk] at h0
    rw [hv] at h0
    exact h0
  · intro v hv
    simp only [threadOk] at h1
    rw [hv] at h1
    exact h1

/-- Witness for C8 (amended): the schedule in which the first caller
runs alone to completion; it fetched once and observed the key set. -/
theorem c8_amended_race_tolerant_witness :
    (concRun (fun _ => (5 : Nat)) [false, false, false, false] (concInit Nat)).fetches ≤ 2 ∧
    some 5 = some 5 := by
  have h := c8_amended_race_tolerant Nat 5 [false, false, false, false]
  exact ⟨h.1, h.2.1 (some 5) (by decide)⟩

/-- C9: `/callback` writes the session atomically: the four keys are
written exactly on the two successful outcomes (userinfo success, or
id_token fallback success), and every failure path — missing code,
network error, non-2xx token response, JSON decode error, missing
access token, userinfo failure without a decodable id_token, and the
uncaught-exception paths — leaves the session entirely unchanged. -/
theorem c9_session_atomic (jloads : List Nat → Option Json) (code : Option String)
    (tokenResp userinfoResp : Except Unit UpstreamResp) (s : Session)
    (r : CallbackOutcome) (s2 : Session)
    (hcb : callback jloads code tokenResp userinfoResp s = (r, s2)) :
    (r ≠ .success → s2 = s) ∧
    (r = .success →
      ∃ u ui tok idt, s2 = ⟨some u, some ui, some tok, some idt⟩) := by
  unfold callback at hcb
  repeat' split at hcb
  all_goals injection hcb with h1 h2
  all_goals subst h1
  all_goals subst h2
  all_goals
    first
      | exact ⟨fun _ => rfl, fun hs => CallbackOutcome.noConfusion hs⟩
      | exact ⟨fun hne => absurd rfl hne, fun _ => ⟨_, _, _, _, rfl⟩⟩

/-- Witness for C9 at a concrete successful login: all four session
keys are written. -/
theorem c9_session_atomic_witness :
    ∃ u ui tok idt,
      (⟨some (Json.str "bob"),
        some (Json.obj [("preferred_username", Json.str "bob"), ("sub", Json.str "u1")]),
        some (Json.str "tok"), some (Json.str "idt")⟩ : Session)
        = ⟨some u, some ui, some tok, some idt⟩ :=
  (c9_session_atomic (fun _ => none) (some "abc")
    (.ok ⟨true, some (Json.obj
      [("access_token", Json.str "tok"), ("id_token", Json.str "idt")])⟩)
    (.ok ⟨true, some (Json.obj
      [("preferred_username", Json.str "bob"), ("sub", Json.str "u1")])⟩)
    emptySession .success
    ⟨some (Json.str "bob"),
     some (Json.obj [("preferred_username", Json.str "bob"), ("sub", Json.str "u1")]),
     some (Json.str "tok"), some (Json.str "idt")⟩ rfl).2 rfl

/-- C4 counterexample: on the success path with a userinfo body that
has `sub` but no `preferred_username`, the stored identity is Python
`None` — the code does NOT fall back to `sub` there (the claimed
identity would be "u1"). -/
theorem c4_no_sub_fallback_counterexample :
    (callback (fun _ => none) (some "abc")
      (.ok ⟨true, some (Json.obj
        [("access_token", Json.str "tok"), ("id_token", Json.str "idt")])⟩)
      (.ok ⟨true, some (Json.obj [("sub", Json.str "u1")])⟩) emptySession)
      = (.success,
         ⟨some Json.null, some (Json.obj [("sub", Json.str "u1")]),
          some (Json.str "tok"), some (Json.str "idt")⟩) ∧
    some Json.null ≠ some (Json.str "u1") := by
  refine ⟨rfl, ?_⟩
  intro h
  injection h with h2
  exact Json.noConfusion h2

/-- C4 (amended): in the success path (token endpoint 2xx with a
string access token, userinfo endpoint 2xx with a JSON-object body) the
stored userinfo equals the parsed userinfo response body and the
primary identity equals `userinfo.get('preferred_username')` with NO
fallback to `sub` (Python `None` is stored when the claim is absent);
the stored access token is the stripped token and the stored `id_token`
is whatever the token response held. -/
theorem c4_amended_success_identity (jloads : List Nat → Option Json)
    (code : String) (hcode : code ≠ "")
    (tfs ufs : List (String × Json)) (rawTok : String)
    (hat : (Json.obj tfs).get "access_token" = Json.str rawTok)
    (hne : rawTok ≠ "") (s : Session) :
    callback jloads (some code) (.ok ⟨true, some (Json.obj tfs)⟩)
        (.ok ⟨true, some (Json.obj ufs)⟩) s
      = (.success,
         ⟨some ((Json.obj ufs).get "preferred_username"),
          some (Json.obj ufs),
          some (Json.str (pyStrip rawTok)),
          some ((Json.obj tfs).get "id_token")⟩) := by
  unfold callback
  simp [hcode, hat, hne, Json.truthy]

/-- Witness for C4 (amended): a userinfo body carrying only `sub`
stores identity `None`. -/
theorem c4_amended_success_identity_witness :
    callback (fun _ => none) (some "abc")
        (.ok ⟨true, some (Json.obj
          [("access_token", Json.str "tok"), ("id_token", Json.str "idt")])⟩)
        (.ok ⟨true, some (Json.obj [("sub", Json.str "u1")])⟩) emptySession
      = (.success,
         ⟨some ((Json.obj [("sub", Json.str "u1")]).get "preferred_username"),
          some (Json.obj [("sub", Json.str "u1")]),
          some (Json.str (pyStrip "tok")),
          some ((Json.obj
            [("access_token", Json.str "tok"), ("id_token", Json.str "idt")]).get
              "id_token")⟩) :=
  c4_amended_success_identity (fun _ => none) "abc" (by decide)
    [("access_token", Json.str "tok"), ("id_token", Json.str "idt")]
    [("sub", Json.str "u1")] "tok" rfl (by decide) emptySession

/-- C5 counterexample: in the id_token fallback, claims carrying
`preferred_username = ""` (present, not absent) resolve the identity to
`sub` ("u1"), because Python `or` also discards falsy present values —
the claim as stated would resolve to the empty string. -/
theorem c5_truthiness_counterexample :
    (callback emptyPuLoads (some "abc")
      (.ok ⟨true, some (Json.obj
        [("access_token", Json.str "tok"), ("id_token", Json.str "x.AA")])⟩)
      (.ok ⟨false, none⟩) emptySession)
      = (.success,
         ⟨some (Json.str "u1"),
          some (Json.obj [("preferred_username", Json.str ""), ("sub", Json.str "u1")]),
          some (Json.str "tok"), some (Json.str "x.AA")⟩) ∧
    Json.str "u1" ≠ Json.str "" := by
  refine ⟨rfl, ?_⟩
  intro h
  injection h with h2
  exact absurd h2 (by decide)

/-- C5 (amended): when the userinfo request fails but the token
response carried a (nonempty string) `id_token` whose unverified decode
yields a JSON-object claims mapping, that mapping becomes the stored
userinfo and the identity is `preferred_username or sub` with Python
truthiness: `preferred_username` when it is truthy (e.g. a nonempty
string), otherwise `sub`; an undecodable `id_token` instead fails with
the userinfo-endpoint 500. -/
theorem c5_amended_fallback_identity (jloads : List Nat → Option Json)
    (code : String) (hcode : code ≠ "")
    (tfs : List (String × Json)) (rawTok idt : String)
    (hat : (Json.obj tfs).get "access_token" = Json.str rawTok)
    (hne : rawTok ≠ "")
    (hit : (Json.obj tfs).get "id_token" = Json.str idt)
    (hitne : idt ≠ "")
    (ubody : Option Json)
    (m : List (String × Json))
    (hdec : decode_jwt jloads idt = some (Json.obj m))
    (s : Session) :
    callback jloads (some code) (.ok ⟨true, some (Json.obj tfs)⟩)
        (.ok ⟨false, ubody⟩) s
      = (.success,
         ⟨some (pyOr ((Json.obj m).get "preferred_username")
            ((Json.obj m).get "sub")),
          some (Json.obj m),
          some (Json.str (pyStrip rawTok)),
          some (Json.str idt)⟩) := by
  unfold callback
  simp [hcode, hat, hne, hit, hitne, Json.truthy, hdec]

/-- Witness for C5 (amended): the spec's example — userinfo failure
plus an id_token whose claims carry `preferred_username = alice`
resolves the identity to `alice`. -/
theorem c5_amended_fallback_identity_witness :
    callback aliceLoads (some "abc")
        (.ok ⟨true, some (Json.obj
          [("access_token", Json.str "tok"), ("id_token", Json.str "x.AA")])⟩)
        (.ok ⟨false, none⟩) emptySession
      = (.success,
         ⟨some (pyOr ((Json.obj
            [("preferred_username", Json.str "alice"), ("sub", Json.str "u1")]).get
              "preferred_username")
            ((Json.obj
              [("preferred_username", Json.str "alice"), ("sub", Json.str "u1")]).get
                "sub")),
          some (Json.obj
            [("preferred_username", Json.str "alice"), ("sub", Json.str "u1")]),
          some (Json.str (pyStrip "tok")),
          some (Json.str "x.AA")⟩) :=
  c5_amended_fallback_identity aliceLoads "abc" (by decide)
    [("access_token", Json.str "tok"), ("id_token", Json.str "x.AA")]
    "tok" "x.AA" rfl (by decide) rfl (by decide) none
    [("preferred_username", Json.str "alice"), ("sub", Json.str "u1")] rfl
    emptySession
